import Mathlib

/-!
Verification of the IDKG consensus component (src/rs/consensus/src/idkg.rs):
the gossip priority function, the priority-snapshot construction, the
active-transcript retention task, and the round-robin driver.

Heights are u64 newtypes in the source; they are modelled as Nat (no claim
touches u64 overflow).  BTreeSet / HashSet collections are modelled as
Finset.  The metric registries are modelled as explicit counter maps so that
the counter side effects of the source are visible in the embedding.
-/

namespace IDkg

/-- SubnetId is an opaque identifier with equality (a principal id in the
source). -/
structure SubnetId where
  id : Nat
deriving DecidableEq, Repr

/-- IDkgTranscriptId from ic_types: (source_subnet, id, source_height).
Two transcript ids are equal iff all three components match. -/
structure IDkgTranscriptId where
  source_subnet : SubnetId
  id : Nat
  source_height : Nat
deriving DecidableEq, Repr

/-- Pre-signature identifier (PreSigId newtype over u64). -/
structure PreSigId where
  id : Nat
deriving DecidableEq, Repr

/-- RequestId from ic_types: (pre_signature_id, pseudo_random_id, height).
The pseudo_random_id is a 32-byte array in the source; only its equality is
used by this component, so it is modelled as a Nat. -/
structure RequestId where
  pre_signature_id : PreSigId
  pseudo_random_id : Nat
  height : Nat
deriving DecidableEq, Repr

/-- The advertised attribute of an IDKG artifact (IDkgMessageAttribute). -/
inductive IDkgMessageAttribute where
  | Dealing (transcript_id : IDkgTranscriptId)
  | DealingSupport (transcript_id : IDkgTranscriptId)
  | EcdsaSigShare (request_id : RequestId)
  | SchnorrSigShare (request_id : RequestId)
  | Complaint (transcript_id : IDkgTranscriptId)
  | Opening (transcript_id : IDkgTranscriptId)
deriving DecidableEq, Repr

/-- Priority returned by the gossip priority function. -/
inductive Priority where
  | FetchNow
  | Stash
  | Drop
deriving DecidableEq, Repr

/-- Metric label keys used by this component.  The source keys its counters
by strings (attr.as_str() and literal labels); only their distinctness is
observable, so they are modelled as an enumeration. -/
inductive MetricLabel where
  | signed_dealing
  | dealing_support
  | ecdsa_sig_share
  | schnorr_sig_share
  | complaint
  | opening
  | resolve_active_transcript_refs
  | retain_active_transcripts
  | retain_active_transcripts_transient
deriving DecidableEq, Repr

/-- IDkgMessageAttribute::as_str, the metric label of an attribute kind. -/
def IDkgMessageAttribute.as_str : IDkgMessageAttribute → MetricLabel
  | .Dealing _ => .signed_dealing
  | .DealingSupport _ => .dealing_support
  | .EcdsaSigShare _ => .ecdsa_sig_share
  | .SchnorrSigShare _ => .schnorr_sig_share
  | .Complaint _ => .complaint
  | .Opening _ => .opening

/-- Counter map: one Nat counter per metric label. -/
def CounterMap : Type := MetricLabel → Nat

/-- Increment the counter of one label. -/
def bump (f : CounterMap) (label : MetricLabel) : CounterMap :=
  fun s => if s = label then f s + 1 else f s

/-- IDkgGossipMetrics: the dropped_adverts counter vector. -/
structure IDkgGossipMetrics where
  dropped_adverts : CounterMap

/-- LOOK_AHEAD = 10: artifacts are not fetched too far ahead in the future. -/
def LOOK_AHEAD : Nat := 10

/-- INACTIVE_TRANSCRIPT_PURGE_SECS = 60 seconds, the retention period. -/
def INACTIVE_TRANSCRIPT_PURGE_SECS : Nat := 60

/-- IDkgPriorityFnArgs: the cached snapshot the priority function closes
over. -/
structure IDkgPriorityFnArgs where
  finalized_height : Nat
  certified_height : Nat
  requested_transcripts : Finset IDkgTranscriptId
  requested_signatures : Finset RequestId
  active_transcripts : Finset IDkgTranscriptId

/-- compute_priority from src/rs/consensus/src/idkg.rs.  The source also
mutates the dropped_adverts metric on every Drop branch; the embedding
threads the metric state explicitly and returns the updated registry next
to the Priority. -/
def compute_priority (attr : IDkgMessageAttribute) (subnet_id : SubnetId)
    (args : IDkgPriorityFnArgs) (metrics : IDkgGossipMetrics) :
    Priority × IDkgGossipMetrics :=
  match attr with
  | .Dealing transcript_id | .DealingSupport transcript_id =>
    -- For xnet dealings (target side), always fetch the artifacts, as the
    -- source_height from a different subnet cannot be compared anyways.
    if transcript_id.source_subnet ≠ subnet_id then
      (.FetchNow, metrics)
    else
      let height := transcript_id.source_height
      if height ≤ args.finalized_height then
        if transcript_id ∈ args.requested_transcripts then
          (.FetchNow, metrics)
        else
          (.Drop, ⟨bump metrics.dropped_adverts attr.as_str⟩)
      else if height < args.finalized_height + LOOK_AHEAD then
        (.FetchNow, metrics)
      else
        (.Stash, metrics)
  | .EcdsaSigShare request_id | .SchnorrSigShare request_id =>
    if request_id.height ≤ args.certified_height then
      if request_id ∈ args.requested_signatures then
        (.FetchNow, metrics)
      else
        (.Drop, ⟨bump metrics.dropped_adverts attr.as_str⟩)
    else if request_id.height < args.certified_height + LOOK_AHEAD then
      (.FetchNow, metrics)
    else
      (.Stash, metrics)
  | .Complaint transcript_id | .Opening transcript_id =>
    let height := transcript_id.source_height
    if height ≤ args.finalized_height then
      if transcript_id ∈ args.active_transcripts ∨
          transcript_id ∈ args.requested_transcripts then
        (.FetchNow, metrics)
      else
        (.Drop, ⟨bump metrics.dropped_adverts attr.as_str⟩)
    else if height < args.finalized_height + LOOK_AHEAD then
      (.FetchNow, metrics)
    else
      (.Stash, metrics)

/-- The dealing / dealing-support priority rule as the specification words
it: FetchNow for cross-subnet ids; below or at the finalized height,
FetchNow exactly for requested transcripts and Drop otherwise; FetchNow in
the look-ahead window; Stash beyond it. -/
def dealing_priority_spec (t : IDkgTranscriptId) (own : SubnetId)
    (finalized_height : Nat) (requested : Finset IDkgTranscriptId) : Priority :=
  if t.source_subnet ≠ own then .FetchNow
  else if t.source_height ≤ finalized_height then
    (if t ∈ requested then .FetchNow else .Drop)
  else if finalized_height < t.source_height ∧
      t.source_height < finalized_height + 10 then .FetchNow
  else .Stash

/-- The signature-share priority rule as the specification words it, keyed
on the certified height and the requested signatures. -/
def sig_share_priority_spec (r : RequestId) (certified_height : Nat)
    (requested : Finset RequestId) : Priority :=
  if r.height ≤ certified_height then
    (if r ∈ requested then .FetchNow else .Drop)
  else if certified_height < r.height ∧
      r.height < certified_height + 10 then .FetchNow
  else .Stash

/-- The complaint / opening priority rule as the specification words it:
the accept set is the union of active and requested transcripts. -/
def complaint_priority_spec (t : IDkgTranscriptId) (finalized_height : Nat)
    (active requested : Finset IDkgTranscriptId) : Priority :=
  if t.source_height ≤ finalized_height then
    (if t ∈ active ∨ t ∈ requested then .FetchNow else .Drop)
  else if finalized_height < t.source_height ∧
      t.source_height < finalized_height + 10 then .FetchNow
  else .Stash

/-- A transcript params ref from the finalized chain; the component reads
only its transcript_id field. -/
structure IDkgTranscriptParamsRef where
  transcript_id : IDkgTranscriptId
deriving DecidableEq, Repr

/-- A transcript ref: (transcript_id, height of the block that introduced
the ref). -/
structure TranscriptRef where
  transcript_id : IDkgTranscriptId
  height : Nat
deriving DecidableEq, Repr

/-- A resolved IDkgTranscript.  The component only inserts transcripts into
a set and hands the set to the crypto interface, so only identity is
modelled. -/
structure IDkgTranscript where
  transcript_id : IDkgTranscriptId
deriving DecidableEq, Repr

/-- The IDkgBlockReader interface: the projection of the finalized chain
consumed by this component.  The transcript field is the ref resolver
(IDkgBlockReader::transcript), which can fail. -/
structure IDkgBlockReader where
  tip_height : Nat
  requested_transcripts : List IDkgTranscriptParamsRef
  active_transcripts : List TranscriptRef
  transcript : TranscriptRef → Except String IDkgTranscript

/-- A certified state snapshot: the certified height together with the
per-context request ids.  Modelled from the spec: get_context_request_id
(in idkg/utils.rs, outside the included sources) projects each signature
request context to zero or one RequestId, so the contexts are carried here
already projected. -/
structure CertifiedStateSnapshot where
  height : Nat
  request_ids : List (Option RequestId)

/-- Insert the transcript ids of the requested params into a set
(the first loop of IDkgPriorityFnArgs::new). -/
def collect_requested (params : List IDkgTranscriptParamsRef) :
    Finset IDkgTranscriptId :=
  params.foldl (fun s p => insert p.transcript_id s) ∅

/-- Insert the transcript ids of the active refs into a set
(the second loop of IDkgPriorityFnArgs::new). -/
def collect_active (refs : List TranscriptRef) : Finset IDkgTranscriptId :=
  refs.foldl (fun s r => insert r.transcript_id s) ∅

/-- Collect the request ids yielded by the certified contexts
(the flat_map over get_context_request_id). -/
def collect_signatures (contexts : List (Option RequestId)) :
    Finset RequestId :=
  contexts.foldl (fun s o => match o with
    | some rid => insert rid s
    | none => s) ∅

/-- IDkgPriorityFnArgs::new.  When the certified state snapshot is absent,
map_or(Default::default(), ...) yields certified height 0 and an empty
requested-signatures set. -/
def IDkgPriorityFnArgs.new (block_reader : IDkgBlockReader)
    (snapshot : Option CertifiedStateSnapshot) : IDkgPriorityFnArgs :=
  let ch_rs : Nat × Finset RequestId :=
    match snapshot with
    | none => (0, ∅)
    | some snap => (snap.height, collect_signatures snap.request_ids)
  { finalized_height := block_reader.tip_height
    certified_height := ch_rs.1
    requested_transcripts := collect_requested block_reader.requested_transcripts
    requested_signatures := ch_rs.2
    active_transcripts := collect_active block_reader.active_transcripts }

/-- IDkgRetainKeysError: the retention call either fails transiently or
with some other (fatal) error. -/
inductive IDkgRetainKeysError where
  | transientInternalError (internal_error : Nat)
  | internalError (internal_error : Nat)
deriving DecidableEq, Repr

/-- IDkgClientMetrics: the success counters, the error counters, and the
critical retention-failure counter. -/
structure IDkgClientMetrics where
  client_metrics : CounterMap
  client_errors : CounterMap
  critical_error_ecdsa_retain_active_transcripts : Nat

/-- Accumulator of the resolution loop in purge_inactive_transcripts. -/
structure ResolveAcc where
  active : Finset IDkgTranscript
  error_count : Nat
  metrics : IDkgClientMetrics

/-- The resolution loop of purge_inactive_transcripts: each active ref is
resolved through the block reader; successes are inserted into the set and
bump a success counter, failures bump the error counter and the error
metric. -/
def resolve_refs (block_reader : IDkgBlockReader) :
    List TranscriptRef → ResolveAcc → ResolveAcc
  | [], acc => acc
  | ref :: rest, acc =>
    match block_reader.transcript ref with
    | .ok t =>
      resolve_refs block_reader rest
        ⟨insert t acc.active, acc.error_count,
          { acc.metrics with
            client_metrics :=
              bump acc.metrics.client_metrics .resolve_active_transcript_refs }⟩
    | .error _ =>
      resolve_refs block_reader rest
        ⟨acc.active, acc.error_count + 1,
          { acc.metrics with
            client_errors :=
              bump acc.metrics.client_errors .resolve_active_transcript_refs }⟩

/-- Result of one retention attempt: the set handed to
retain_active_transcripts when the call was made, and the updated metric
registry. -/
structure PurgeResult where
  retain_call : Option (Finset IDkgTranscript)
  metrics : IDkgClientMetrics

/-- IDkgImpl::purge_inactive_transcripts.  All active refs are resolved; if
any resolution failed the attempt aborts before calling the crypto
interface; otherwise retain_active_transcripts is called on the resolved
set, and its outcome is recorded in the metric counters.  The crypto
interface is abstracted as the retain argument. -/
def purge_inactive_transcripts (block_reader : IDkgBlockReader)
    (retain : Finset IDkgTranscript → Option IDkgRetainKeysError)
    (metrics : IDkgClientMetrics) : PurgeResult :=
  let acc := resolve_refs block_reader block_reader.active_transcripts
    ⟨∅, 0, metrics⟩
  if acc.error_count > 0 then
    { retain_call := none, metrics := acc.metrics }
  else
    match retain acc.active with
    | some (.transientInternalError _) =>
      { retain_call := some acc.active
        metrics := { acc.metrics with
          client_errors :=
            bump acc.metrics.client_errors .retain_active_transcripts_transient } }
    | some (.internalError _) =>
      { retain_call := some acc.active
        metrics := { acc.metrics with
          critical_error_ecdsa_retain_active_transcripts :=
            acc.metrics.critical_error_ecdsa_retain_active_transcripts + 1 } }
    | none =>
      { retain_call := some acc.active
        metrics := { acc.metrics with
          client_metrics :=
            bump acc.metrics.client_metrics .retain_active_transcripts } }

/-- The three sub-engines held by the driver, each exposing one
on_state_change operation from a pool snapshot to a change set. -/
structure SubEngines (Pool ChangeSet : Type) where
  pre_signer : Pool → ChangeSet
  signer : Pool → ChangeSet
  complaint_handler : Pool → ChangeSet

/-- Mutable driver state: the round-robin index and the wall-clock
timestamp (in seconds) of the last retention attempt. -/
structure DriverState where
  schedule_index : Nat
  last_transcript_purge_ts : Nat
deriving DecidableEq, Repr

/-- Result of one driver tick: the change set of the invoked sub-engine,
the retention outcome when retention ran, and the successor driver state. -/
structure TickResult (ChangeSet : Type) where
  changes : ChangeSet
  purge : Option PurgeResult
  state : DriverState

/-- Modelled from the spec: RoundRobin::call_next lives in
ic_consensus_utils, outside the included sources.  Per the specification,
the driver invokes the next sub-engine in rotation (Pre-Signer, then
Signer, then Complaint Handler, then repeat): the scheduler holds a
rotating index, calls the entry at the current index, and advances the
index by one. -/
def round_robin_call_next {α : Type} (index : Nat) (c0 c1 c2 : α) : α × Nat :=
  (if index % 3 = 0 then c0 else if index % 3 = 1 then c1 else c2, index + 1)

/-- IDkgImpl::on_state_change (the ChangeSetProducer impl).  One sub-engine
is invoked through the round-robin schedule; afterwards, if at least
INACTIVE_TRANSCRIPT_PURGE_SECS have elapsed since the last retention
timestamp, purge_inactive_transcripts runs and the timestamp is reset to
the current time.  The change set of the scheduled sub-engine is returned
in either case.  Wall-clock instants are modelled as Nat seconds; the
elapsed duration of a monotone clock is the truncated difference. -/
def on_state_change {Pool ChangeSet : Type}
    (engines : SubEngines Pool ChangeSet) (idkg_pool : Pool)
    (st : DriverState) (now : Nat)
    (block_reader : IDkgBlockReader)
    (retain : Finset IDkgTranscript → Option IDkgRetainKeysError)
    (metrics : IDkgClientMetrics) : TickResult ChangeSet :=
  let rr := round_robin_call_next st.schedule_index
    (engines.pre_signer idkg_pool)
    (engines.signer idkg_pool)
    (engines.complaint_handler idkg_pool)
  if INACTIVE_TRANSCRIPT_PURGE_SECS ≤ now - st.last_transcript_purge_ts then
    { changes := rr.1
      purge := some (purge_inactive_transcripts block_reader retain metrics)
      state := { schedule_index := rr.2, last_transcript_purge_ts := now } }
  else
    { changes := rr.1
      purge := none
      state := { schedule_index := rr.2
                 last_transcript_purge_ts := st.last_transcript_purge_ts } }

/-- Drive the component over a list of tick times, collecting the tick
results in order. -/
def drive {Pool ChangeSet : Type}
    (engines : SubEngines Pool ChangeSet) (idkg_pool : Pool)
    (block_reader : IDkgBlockReader)
    (retain : Finset IDkgTranscript → Option IDkgRetainKeysError)
    (metrics : IDkgClientMetrics) :
    DriverState → List Nat → List (TickResult ChangeSet)
  | _, [] => []
  | st, now :: rest =>
    let r := on_state_change engines idkg_pool st now block_reader retain metrics
    r :: drive engines idkg_pool block_reader retain metrics r.state rest

/-- The tick times at which the retention task ran, over a list of tick
times. -/
def retention_times {Pool ChangeSet : Type}
    (engines : SubEngines Pool ChangeSet) (idkg_pool : Pool)
    (block_reader : IDkgBlockReader)
    (retain : Finset IDkgTranscript → Option IDkgRetainKeysError)
    (metrics : IDkgClientMetrics) :
    DriverState → List Nat → List Nat
  | _, [] => []
  | st, now :: rest =>
    let r := on_state_change engines idkg_pool st now block_reader retain metrics
    if r.purge.isSome then
      now :: retention_times engines idkg_pool block_reader retain metrics r.state rest
    else
      retention_times engines idkg_pool block_reader retain metrics r.state rest

/-- C1: for every Dealing or DealingSupport attribute with TranscriptId t,
the priority function returns FetchNow whenever t.source_subnet differs
from the replica's own subnet; otherwise, with h = t.source_height,
FetchNow if h is at most the finalized height and t is requested, Drop if h
is at most the finalized height and t is not requested, FetchNow if h is
strictly between the finalized height and the finalized height plus 10,
and Stash otherwise. -/
theorem C1_dealing_support_priority (t : IDkgTranscriptId) (s : SubnetId)
    (args : IDkgPriorityFnArgs) (m : IDkgGossipMetrics) :
    (compute_priority (.Dealing t) s args m).1 =
      dealing_priority_spec t s args.finalized_height args.requested_transcripts ∧
    (compute_priority (.DealingSupport t) s args m).1 =
      dealing_priority_spec t s args.finalized_height args.requested_transcripts := by
  constructor <;>
  · simp only [compute_priority, dealing_priority_spec, LOOK_AHEAD]
    split_ifs <;> first | rfl | omega

/-- C2: for every EcdsaSigShare or SchnorrSigShare attribute with RequestId
r, the priority function applies the analogous rule against the certified
height and the requested signatures, keyed on r.height; in particular with
certified height 100 and no requested signatures, a share at height 102
gets FetchNow and a share at height 200 gets Stash. -/
theorem C2_sig_share_priority (r : RequestId) (s : SubnetId)
    (args : IDkgPriorityFnArgs) (m : IDkgGossipMetrics) :
    (compute_priority (.EcdsaSigShare r) s args m).1 =
      sig_share_priority_spec r args.certified_height args.requested_signatures ∧
    (compute_priority (.SchnorrSigShare r) s args m).1 =
      sig_share_priority_spec r args.certified_height args.requested_signatures ∧
    (compute_priority (.EcdsaSigShare ⟨⟨3⟩, 3, 102⟩) ⟨2⟩
      ⟨100, 100, ∅, ∅, ∅⟩ ⟨fun _ => 0⟩).1 = .FetchNow ∧
    (compute_priority (.SchnorrSigShare ⟨⟨3⟩, 3, 102⟩) ⟨2⟩
      ⟨100, 100, ∅, ∅, ∅⟩ ⟨fun _ => 0⟩).1 = .FetchNow ∧
    (compute_priority (.EcdsaSigShare ⟨⟨4⟩, 4, 200⟩) ⟨2⟩
      ⟨100, 100, ∅, ∅, ∅⟩ ⟨fun _ => 0⟩).1 = .Stash ∧
    (compute_priority (.SchnorrSigShare ⟨⟨4⟩, 4, 200⟩) ⟨2⟩
      ⟨100, 100, ∅, ∅, ∅⟩ ⟨fun _ => 0⟩).1 = .Stash := by
  refine ⟨?_, ?_, by decide, by decide, by decide, by decide⟩ <;>
  · simp only [compute_priority, sig_share_priority_spec, LOOK_AHEAD]
    split_ifs <;> first | rfl | omega

/-- C3: for every Complaint or Opening attribute with TranscriptId t, the
priority function returns, with h = t.source_height: FetchNow if h is at
most the finalized height and t is active or requested, Drop if h is at
most the finalized height and t is in neither set, FetchNow if h is
strictly between the finalized height and the finalized height plus 10,
and Stash otherwise; in particular a Complaint on an active transcript at
height 80 with finalized height 100 gets FetchNow. -/
theorem C3_complaint_opening_priority (t : IDkgTranscriptId) (s : SubnetId)
    (args : IDkgPriorityFnArgs) (m : IDkgGossipMetrics) :
    (compute_priority (.Complaint t) s args m).1 =
      complaint_priority_spec t args.finalized_height
        args.active_transcripts args.requested_transcripts ∧
    (compute_priority (.Opening t) s args m).1 =
      complaint_priority_spec t args.finalized_height
        args.active_transcripts args.requested_transcripts ∧
    (compute_priority (.Complaint ⟨⟨2⟩, 1, 80⟩) ⟨2⟩
      ⟨100, 100, ∅, ∅, {⟨⟨2⟩, 1, 80⟩}⟩ ⟨fun _ => 0⟩).1 = .FetchNow := by
  refine ⟨?_, ?_, by decide⟩ <;>
  · simp only [compute_priority, complaint_priority_spec, LOOK_AHEAD]
    split_ifs <;> first | rfl | omega

/-- C5: the priority computation is deterministic: on equal inputs
(attribute, subnet id, snapshot) two evaluations return the same Priority,
whatever the ambient metric registry holds. -/
theorem C5_priority_determinism (a1 a2 : IDkgMessageAttribute)
    (s1 s2 : SubnetId) (args1 args2 : IDkgPriorityFnArgs)
    (m1 m2 : IDkgGossipMetrics)
    (ha : a1 = a2) (hs : s1 = s2) (hargs : args1 = args2) :
    (compute_priority a1 s1 args1 m1).1 =
      (compute_priority a2 s2 args2 m2).1 := by
  subst ha hs hargs
  cases a1 <;> simp only [compute_priority] <;> split_ifs <;> rfl

/-- Witness for C5 at a concrete input, with two different metric
registries. -/
theorem C5_priority_determinism_witness :
    (compute_priority (.Dealing ⟨⟨2⟩, 1, 80⟩) ⟨2⟩
      ⟨100, 100, ∅, ∅, ∅⟩ ⟨fun _ => 0⟩).1 =
    (compute_priority (.Dealing ⟨⟨2⟩, 1, 80⟩) ⟨2⟩
      ⟨100, 100, ∅, ∅, ∅⟩ ⟨fun _ => 7⟩).1 :=
  C5_priority_determinism _ _ _ _ _ _ _ _ rfl rfl rfl

/-- C9: when the certified state snapshot is absent, the priority snapshot
is built with certified height 0 and no requested signatures, so a share
at request height 0 gets Drop, heights 1 through 9 get FetchNow, and
heights 10 and above get Stash. -/
theorem C9_no_certified_snapshot (block_reader : IDkgBlockReader)
    (s : SubnetId) (r : RequestId) (m : IDkgGossipMetrics) :
    (IDkgPriorityFnArgs.new block_reader none).certified_height = 0 ∧
    (IDkgPriorityFnArgs.new block_reader none).requested_signatures = ∅ ∧
    (compute_priority (.EcdsaSigShare r) s
        (IDkgPriorityFnArgs.new block_reader none) m).1 =
      (if r.height = 0 then .Drop
       else if r.height < 10 then .FetchNow
       else .Stash) ∧
    (compute_priority (.SchnorrSigShare r) s
        (IDkgPriorityFnArgs.new block_reader none) m).1 =
      (if r.height = 0 then .Drop
       else if r.height < 10 then .FetchNow
       else .Stash) := by
  refine ⟨rfl, rfl, ?_, ?_⟩ <;>
  · simp only [compute_priority, IDkgPriorityFnArgs.new, LOOK_AHEAD]
    split_ifs <;> first | rfl | omega | simp_all

/-- Resolution loop invariant: the loop ends with no errors exactly when it
started with none and every listed ref resolves. -/
theorem resolve_refs_error_free (block_reader : IDkgBlockReader) :
    ∀ (refs : List TranscriptRef) (acc : ResolveAcc),
      ((resolve_refs block_reader refs acc).error_count = 0 ↔
        (acc.error_count = 0 ∧
          ∀ ref ∈ refs, ∃ t, block_reader.transcript ref = Except.ok t)) := by
  intro refs
  induction refs with
  | nil => intro acc; simp [resolve_refs]
  | cons ref rest ih =>
    intro acc
    cases h : block_reader.transcript ref with
    | ok t =>
      simp only [resolve_refs, h]
      rw [ih]
      simp only [List.mem_cons]
      constructor
      · rintro ⟨h1, h2⟩
        exact ⟨h1, fun r hr => hr.elim (fun he => he ▸ ⟨t, h⟩) (h2 r)⟩
      · rintro ⟨h1, h2⟩
        exact ⟨h1, fun r hr => h2 r (Or.inr hr)⟩
    | error e =>
      simp only [resolve_refs, h]
      rw [ih]
      constructor
      · rintro ⟨h1, -⟩
        exact absurd h1 (Nat.succ_ne_zero _)
      · rintro ⟨-, h2⟩
        obtain ⟨t, ht⟩ := h2 ref (List.mem_cons_self ref rest)
        rw [h] at ht
        cases ht

/-- Resolution loop invariant: the accumulated set only grows, and every
transcript that some listed ref resolves to ends up in it. -/
theorem resolve_refs_mem (block_reader : IDkgBlockReader) :
    ∀ (refs : List TranscriptRef) (acc : ResolveAcc),
      (∀ t ∈ acc.active, t ∈ (resolve_refs block_reader refs acc).active) ∧
      (∀ ref ∈ refs, ∀ t, block_reader.transcript ref = Except.ok t →
        t ∈ (resolve_refs block_reader refs acc).active) := by
  intro refs
  induction refs with
  | nil => intro acc; simp [resolve_refs]
  | cons ref rest ih =>
    intro acc
    cases h : block_reader.transcript ref with
    | ok u =>
      simp only [resolve_refs, h]
      obtain ⟨h1, h2⟩ := ih ⟨insert u acc.active, acc.error_count, _⟩
      refine ⟨fun t ht => h1 t (Finset.mem_insert_of_mem ht), ?_⟩
      intro r hr t hrt
      rcases List.mem_cons.mp hr with h3 | h3
      · subst h3
        rw [h] at hrt
        injection hrt with h4
        subst h4
        exact h1 _ (Finset.mem_insert_self _ _)
      · exact h2 r h3 t hrt
    | error e =>
      simp only [resolve_refs, h]
      obtain ⟨h1, h2⟩ := ih ⟨acc.active, acc.error_count + 1, _⟩
      refine ⟨h1, ?_⟩
      intro r hr t hrt
      rcases List.mem_cons.mp hr with h3 | h3
      · subst h3; rw [h] at hrt; cases hrt
      · exact h2 r h3 t hrt

/-- Resolution loop invariant: the resolve-error metric grows by exactly the
number of resolution failures counted. -/
theorem resolve_refs_error_metric (block_reader : IDkgBlockReader) :
    ∀ (refs : List TranscriptRef) (acc : ResolveAcc),
      (resolve_refs block_reader refs acc).metrics.client_errors
          .resolve_active_transcript_refs + acc.error_count =
      acc.metrics.client_errors .resolve_active_transcript_refs +
        (resolve_refs block_reader refs acc).error_count := by
  intro refs
  induction refs with
  | nil => intro acc; simp [resolve_refs]
  | cons ref rest ih =>
    intro acc
    cases h : block_reader.transcript ref with
    | ok t =>
      simp only [resolve_refs, h]
      rw [ih]
    | error e =>
      simp only [resolve_refs, h]
      have h2 := ih ⟨acc.active, acc.error_count + 1, { acc.metrics with client_errors := bump acc.metrics.client_errors MetricLabel.resolve_active_transcript_refs }⟩
      simp only [bump] at h2 ⊢
      simp at h2 ⊢
      omega

/-- The retention call is made exactly when the resolution loop ended clean,
and then on the resolved set. -/
theorem purge_retain_call_eq (block_reader : IDkgBlockReader)
    (retain : Finset IDkgTranscript → Option IDkgRetainKeysError)
    (m : IDkgClientMetrics) :
    (purge_inactive_transcripts block_reader retain m).retain_call =
      (if (resolve_refs block_reader block_reader.active_transcripts
            ⟨∅, 0, m⟩).error_count > 0
       then none
       else some (resolve_refs block_reader block_reader.active_transcripts
            ⟨∅, 0, m⟩).active) := by
  simp only [purge_inactive_transcripts]
  split
  · rfl
  · cases hr : retain (resolve_refs block_reader block_reader.active_transcripts
        ⟨∅, 0, m⟩).active with
    | none => rfl
    | some err => cases err <;> rfl

/-- On abort, the metrics of the retention attempt are those of the
resolution loop. -/
theorem purge_metrics_abort (block_reader : IDkgBlockReader)
    (retain : Finset IDkgTranscript → Option IDkgRetainKeysError)
    (m : IDkgClientMetrics)
    (h : (resolve_refs block_reader block_reader.active_transcripts
        ⟨∅, 0, m⟩).error_count > 0) :
    (purge_inactive_transcripts block_reader retain m).metrics =
      (resolve_refs block_reader block_reader.active_transcripts
        ⟨∅, 0, m⟩).metrics := by
  simp only [purge_inactive_transcripts]
  split
  · rfl
  · omega

/-- C4: the retention task calls retain_active_transcripts if and only if
every reference in the block reader's active transcripts resolves; in that
case the set passed contains the transcript resolved from every active
reference; if any reference fails to resolve, the call is not made at all
and the resolve-error counter is incremented. -/
theorem C4_retention_guard (block_reader : IDkgBlockReader)
    (retain : Finset IDkgTranscript → Option IDkgRetainKeysError)
    (m : IDkgClientMetrics) :
    ((∃ s, (purge_inactive_transcripts block_reader retain m).retain_call = some s) ↔
      (∀ ref ∈ block_reader.active_transcripts,
        ∃ t, block_reader.transcript ref = Except.ok t)) ∧
    (∀ s ref t, (purge_inactive_transcripts block_reader retain m).retain_call = some s →
      ref ∈ block_reader.active_transcripts →
      block_reader.transcript ref = Except.ok t → t ∈ s) ∧
    ((purge_inactive_transcripts block_reader retain m).retain_call = none →
      m.client_errors .resolve_active_transcript_refs <
        (purge_inactive_transcripts block_reader retain m).metrics.client_errors
          .resolve_active_transcript_refs) := by
  have hfree := resolve_refs_error_free block_reader
    block_reader.active_transcripts ⟨∅, 0, m⟩
  have hmem := resolve_refs_mem block_reader
    block_reader.active_transcripts ⟨∅, 0, m⟩
  have hmetric := resolve_refs_error_metric block_reader
    block_reader.active_transcripts ⟨∅, 0, m⟩
  have hcall := purge_retain_call_eq block_reader retain m
  by_cases h : (resolve_refs block_reader block_reader.active_transcripts
      ⟨∅, 0, m⟩).error_count > 0
  · rw [if_pos h] at hcall
    have hmet := purge_metrics_abort block_reader retain m h
    refine ⟨?_, ?_, ?_⟩
    · rw [hcall]
      simp only [false_iff, reduceCtorEq, exists_false]
      intro hall
      have : (resolve_refs block_reader block_reader.active_transcripts
          ⟨∅, 0, m⟩).error_count = 0 := hfree.mpr ⟨rfl, hall⟩
      omega
    · intro s ref t hs
      rw [hcall] at hs
      cases hs
    · intro _
      rw [hmet]
      dsimp only at hmetric
      omega
  · rw [if_neg h] at hcall
    have h0 : (resolve_refs block_reader block_reader.active_transcripts
        ⟨∅, 0, m⟩).error_count = 0 := by omega
    refine ⟨?_, ?_, ?_⟩
    · rw [hcall]
      constructor
      · intro _
        exact (hfree.mp h0).2
      · intro _
        exact ⟨_, rfl⟩
    · intro s ref t hs href hrt
      rw [hcall] at hs
      injection hs with hs2
      subst hs2
      exact hmem.2 ref href t hrt
    · intro hnone
      rw [hcall] at hnone
      cases hnone

/-- Driver projection: the change set returned by a tick is the scheduled
sub-engine's result, whatever the retention branch did. -/
theorem on_state_change_changes (Pool ChangeSet : Type)
    (engines : SubEngines Pool ChangeSet) (idkg_pool : Pool)
    (st : DriverState) (now : Nat) (block_reader : IDkgBlockReader)
    (retain : Finset IDkgTranscript → Option IDkgRetainKeysError)
    (metrics : IDkgClientMetrics) :
    (on_state_change engines idkg_pool st now block_reader retain metrics).changes =
      (round_robin_call_next st.schedule_index (engines.pre_signer idkg_pool)
        (engines.signer idkg_pool) (engines.complaint_handler idkg_pool)).1 := by
  simp only [on_state_change]
  split <;> rfl

/-- Driver projection: each tick advances the round-robin index by one. -/
theorem on_state_change_schedule_index (Pool ChangeSet : Type)
    (engines : SubEngines Pool ChangeSet) (idkg_pool : Pool)
    (st : DriverState) (now : Nat) (block_reader : IDkgBlockReader)
    (retain : Finset IDkgTranscript → Option IDkgRetainKeysError)
    (metrics : IDkgClientMetrics) :
    (on_state_change engines idkg_pool st now block_reader retain
        metrics).state.schedule_index = st.schedule_index + 1 := by
  simp only [on_state_change]
  split <;> rfl

/-- C6: each call of the driver invokes exactly one of the three
sub-engines, selected by the rotating index, and returns that sub-engine's
change set; the index advances by one per tick, so over three consecutive
ticks starting at a Pre-Signer slot the returned change sets are exactly
those of the Pre-Signer, the Signer and the Complaint Handler, in that
order. -/
theorem C6_round_robin_schedule (Pool ChangeSet : Type)
    (engines : SubEngines Pool ChangeSet) (idkg_pool : Pool)
    (st : DriverState) (now : Nat) (block_reader : IDkgBlockReader)
    (retain : Finset IDkgTranscript → Option IDkgRetainKeysError)
    (metrics : IDkgClientMetrics) (j ts n1 n2 n3 : Nat) :
    (on_state_change engines idkg_pool st now block_reader retain metrics).changes =
      (if st.schedule_index % 3 = 0 then engines.pre_signer idkg_pool
       else if st.schedule_index % 3 = 1 then engines.signer idkg_pool
       else engines.complaint_handler idkg_pool) ∧
    (on_state_change engines idkg_pool st now block_reader retain
        metrics).state.schedule_index = st.schedule_index + 1 ∧
    (drive engines idkg_pool block_reader retain metrics ⟨3 * j, ts⟩
        [n1, n2, n3]).map (fun r => r.changes) =
      [engines.pre_signer idkg_pool, engines.signer idkg_pool,
       engines.complaint_handler idkg_pool] := by
  refine ⟨?_, ?_, ?_⟩
  · rw [on_state_change_changes]
    simp only [round_robin_call_next]
  · rw [on_state_change_schedule_index]
  · have ha : 3 * j % 3 = 0 := by omega
    have hb : (3 * j + 1) % 3 = 1 := by omega
    have hc : (3 * j + 1 + 1) % 3 = 2 := by omega
    simp only [drive, List.map, on_state_change_changes,
      on_state_change_schedule_index, round_robin_call_next]
    simp [ha, hb, hc]

/-- C7: the change set returned by a tick does not depend on the clock, the
block reader, the retention outcome of the crypto interface, or the metric
registry: for every pool state the tick returns the scheduled sub-engine's
change set, and errors during retention leave it unchanged.  Totality of
the model gives that a change set is always returned. -/
theorem C7_changes_unaffected (Pool ChangeSet : Type)
    (engines : SubEngines Pool ChangeSet) (idkg_pool : Pool) (st : DriverState)
    (now1 now2 : Nat) (br1 br2 : IDkgBlockReader)
    (retain1 retain2 : Finset IDkgTranscript → Option IDkgRetainKeysError)
    (m1 m2 : IDkgClientMetrics) :
    (on_state_change engines idkg_pool st now1 br1 retain1 m1).changes =
      (on_state_change engines idkg_pool st now2 br2 retain2 m2).changes := by
  rw [on_state_change_changes, on_state_change_changes]

/-- Driver projection: retention runs in a tick exactly when the purge
period has elapsed since the stored timestamp. -/
theorem tick_purge_isSome (Pool ChangeSet : Type)
    (engines : SubEngines Pool ChangeSet) (idkg_pool : Pool)
    (st : DriverState) (now : Nat) (block_reader : IDkgBlockReader)
    (retain : Finset IDkgTranscript → Option IDkgRetainKeysError)
    (metrics : IDkgClientMetrics) :
    ((on_state_change engines idkg_pool st now block_reader retain
        metrics).purge.isSome = true ↔
      INACTIVE_TRANSCRIPT_PURGE_SECS ≤ now - st.last_transcript_purge_ts) := by
  simp only [on_state_change, round_robin_call_next]
  split <;> simp_all

/-- Driver projection: the retention timestamp is reset to the current time
when retention runs and kept otherwise. -/
theorem tick_last_ts (Pool ChangeSet : Type)
    (engines : SubEngines Pool ChangeSet) (idkg_pool : Pool)
    (st : DriverState) (now : Nat) (block_reader : IDkgBlockReader)
    (retain : Finset IDkgTranscript → Option IDkgRetainKeysError)
    (metrics : IDkgClientMetrics) :
    (on_state_change engines idkg_pool st now block_reader retain
        metrics).state.last_transcript_purge_ts =
      (if INACTIVE_TRANSCRIPT_PURGE_SECS ≤ now - st.last_transcript_purge_ts
       then now else st.last_transcript_purge_ts) := by
  simp only [on_state_change, round_robin_call_next]
  split <;> simp_all

/-- Over any run, every retention time is at least one purge period after
the stored timestamp, and successive retention times are at least one purge
period apart. -/
theorem retention_times_lower_bound (Pool ChangeSet : Type)
    (engines : SubEngines Pool ChangeSet) (idkg_pool : Pool)
    (block_reader : IDkgBlockReader)
    (retain : Finset IDkgTranscript → Option IDkgRetainKeysError)
    (metrics : IDkgClientMetrics) :
    ∀ (ticks : List Nat) (st : DriverState),
      (∀ x ∈ retention_times engines idkg_pool block_reader retain metrics st ticks,
        st.last_transcript_purge_ts + INACTIVE_TRANSCRIPT_PURGE_SECS ≤ x) ∧
      List.Pairwise (fun a b => a + INACTIVE_TRANSCRIPT_PURGE_SECS ≤ b)
        (retention_times engines idkg_pool block_reader retain metrics st ticks) := by
  intro ticks
  induction ticks with
  | nil => intro st; simp [retention_times]
  | cons now rest ih =>
    intro st
    obtain ⟨ih1, ih2⟩ := ih (on_state_change engines idkg_pool st now
      block_reader retain metrics).state
    rw [tick_last_ts] at ih1
    by_cases h : INACTIVE_TRANSCRIPT_PURGE_SECS ≤ now - st.last_transcript_purge_ts
    · have hp : (on_state_change engines idkg_pool st now block_reader retain
          metrics).purge.isSome = true :=
        (tick_purge_isSome Pool ChangeSet engines idkg_pool st now block_reader
          retain metrics).mpr h
      rw [if_pos h] at ih1
      simp only [retention_times, hp, if_true]
      have hL : st.last_transcript_purge_ts + INACTIVE_TRANSCRIPT_PURGE_SECS ≤ now := by
        simp only [INACTIVE_TRANSCRIPT_PURGE_SECS] at h ⊢
        omega
      constructor
      · intro x hx
        rcases List.mem_cons.mp hx with h3 | h3
        · omega
        · have := ih1 x h3
          omega
      · exact List.Pairwise.cons (fun x hx => ih1 x hx) ih2
    · have hp : (on_state_change engines idkg_pool st now block_reader retain
          metrics).purge.isSome = false := by
        rw [Bool.eq_false_iff]
        intro hcon
        exact h ((tick_purge_isSome Pool ChangeSet engines idkg_pool st now
          block_reader retain metrics).mp hcon)
      rw [if_neg h] at ih1
      simp only [retention_times, hp, Bool.false_eq_true, if_false]
      exact ⟨ih1, ih2⟩

/-- C8: within a tick, retention runs if and only if at least the purge
period (60 seconds) has elapsed since the stored retention timestamp;
whenever it runs the timestamp is reset to the current time; consequently,
over any run, any two tick times at which retention ran are at least 60
seconds apart. -/
theorem C8_retention_timer (Pool ChangeSet : Type)
    (engines : SubEngines Pool ChangeSet) (idkg_pool : Pool)
    (st : DriverState) (now : Nat) (ticks : List Nat)
    (block_reader : IDkgBlockReader)
    (retain : Finset IDkgTranscript → Option IDkgRetainKeysError)
    (metrics : IDkgClientMetrics) :
    ((on_state_change engines idkg_pool st now block_reader retain
        metrics).purge.isSome = true ↔
      INACTIVE_TRANSCRIPT_PURGE_SECS ≤ now - st.last_transcript_purge_ts) ∧
    (on_state_change engines idkg_pool st now block_reader retain
        metrics).state.last_transcript_purge_ts =
      (if INACTIVE_TRANSCRIPT_PURGE_SECS ≤ now - st.last_transcript_purge_ts
       then now else st.last_transcript_purge_ts) ∧
    List.Pairwise (fun a b => a + INACTIVE_TRANSCRIPT_PURGE_SECS ≤ b)
      (retention_times engines idkg_pool block_reader retain metrics st ticks) :=
  ⟨tick_purge_isSome Pool ChangeSet engines idkg_pool st now block_reader
      retain metrics,
   tick_last_ts Pool ChangeSet engines idkg_pool st now block_reader
      retain metrics,
   (retention_times_lower_bound Pool ChangeSet engines idkg_pool block_reader
      retain metrics ticks st).2⟩

/-- C10: the cross-subnet exemption applies only to dealings and dealing
support: the priority of a Complaint or Opening never depends on the
subnet id and always follows the local height-and-membership rule; in
particular a cross-subnet Complaint below the finalized height on a
transcript in neither set gets Drop, and a cross-subnet Opening far above
gets Stash, not an unconditional FetchNow. -/
theorem C10_complaint_opening_ignore_subnet (t : IDkgTranscriptId)
    (s1 s2 : SubnetId) (args : IDkgPriorityFnArgs) (m : IDkgGossipMetrics) :
    (compute_priority (.Complaint t) s1 args m).1 =
      (compute_priority (.Complaint t) s2 args m).1 ∧
    (compute_priority (.Opening t) s1 args m).1 =
      (compute_priority (.Opening t) s2 args m).1 ∧
    (compute_priority (.Complaint t) s1 args m).1 =
      complaint_priority_spec t args.finalized_height
        args.active_transcripts args.requested_transcripts ∧
    (compute_priority (.Opening t) s1 args m).1 =
      complaint_priority_spec t args.finalized_height
        args.active_transcripts args.requested_transcripts ∧
    (compute_priority (.Complaint ⟨⟨1⟩, 1, 80⟩) ⟨2⟩
      ⟨100, 100, ∅, ∅, ∅⟩ ⟨fun _ => 0⟩).1 = .Drop ∧
    (compute_priority (.Opening ⟨⟨1⟩, 6, 200⟩) ⟨2⟩
      ⟨100, 100, ∅, ∅, ∅⟩ ⟨fun _ => 0⟩).1 = .Stash := by
  refine ⟨rfl, rfl, ?_, ?_, by decide, by decide⟩ <;>
  · simp only [compute_priority, complaint_priority_spec, LOOK_AHEAD]
    split_ifs <;> first | rfl | omega

end IDkg
